import Mathlib

/-!
Verification of the firmware-update core of the `esp32-prometheus-dht22`
sketch (second variant in `src/esp32_dht22_prometheus/esp32_dht22_prometheus.ino`,
lines 2090-2950): the bounded event log, the configuration store, the sensor
cache, and the GitHub OTA update orchestrator with its chunked download loop.

The embedding is shallow: the mutable globals of the sketch
(`currentVersion`, `updateInProgress`, the log, the staged flash bytes, the
cached sensor reading) become an explicit `DevState` record threaded through
the functions; network and flash outcomes (HTTP codes, content length, free
sketch space, `Update.begin/write/end` results, per-iteration socket
availability and WiFi status) become explicit environment records, since on
the device they are inputs read from hardware.  C `int`/`size_t` counters are
modelled as `Nat` (the spec's counters are monotone and never reset), `float`
sensor values as `Float` with NaN rendered as `Option.none`.
-/

namespace Esp32

/-- A log entry as stored by `logMessage` (struct `LogEntry`, lines 2134-2139;
the `timestamp` field is wall-clock I/O and is not modelled — no claim
mentions it). -/
structure LogEntry where
  level : String
  category : String
  message : String
deriving DecidableEq, Repr

/-- `const int MAX_LOG_ENTRIES = 50;` (line 2141). -/
def MAX_LOG_ENTRIES : Nat := 50

namespace EventLog

/-- The globals of the ring buffer: `LogEntry logBuffer[MAX_LOG_ENTRIES]`,
`int logIndex`, `int logCount` (lines 2142-2144). -/
structure RingState where
  buffer : List LogEntry
  logIndex : Nat
  logCount : Nat
deriving DecidableEq, Repr

/-- Boot state: zero-initialised buffer, `logIndex = 0`, `logCount = 0`. -/
def initState : RingState :=
  { buffer := List.replicate MAX_LOG_ENTRIES ⟨"", "", ""⟩, logIndex := 0, logCount := 0 }

/-- `logMessage` (lines 2643-2655): write the entry at the cursor, advance the
cursor mod `MAX_LOG_ENTRIES`, bump the total-write counter.  The
`Serial.println` mirror is I/O and outside the model. -/
def logMessage (st : RingState) (e : LogEntry) : RingState :=
  { buffer := st.buffer.set st.logIndex e
    logIndex := (st.logIndex + 1) % MAX_LOG_ENTRIES
    logCount := st.logCount + 1 }

/-- A whole history of writes applied to the boot state. -/
def runLog (es : List LogEntry) : RingState := es.foldl logMessage initState

/-- The sequence of entries `generateLogsText` (lines 2560-2582) renders, in
the order its display loop visits them:
`startIndex = (logCount > MAX_LOG_ENTRIES) ? logIndex : 0`,
`displayCount = min(logCount, MAX_LOG_ENTRIES)`,
slot `(startIndex + i) % MAX_LOG_ENTRIES` for `i < displayCount`. -/
def generateLogsEntries (st : RingState) : List LogEntry :=
  let startIndex := if MAX_LOG_ENTRIES < st.logCount then st.logIndex else 0
  let displayCount := min st.logCount MAX_LOG_ENTRIES
  (List.range displayCount).map fun i =>
    st.buffer.getD ((startIndex + i) % MAX_LOG_ENTRIES) ⟨"", "", ""⟩

/-- A concrete log-write history of length `n` used by the C7 witness. -/
def sampleHistory (n : Nat) : List LogEntry :=
  (List.range n).map fun i => ⟨"INFO", "TEST", toString i⟩

end EventLog

/-! Device model: the mutable globals touched by the OTA / sensor / config
code, as one explicit state record.  `log` is the history of `logMessage`
calls (the ring-buffer retention of such a history is the `EventLog`
development above); `staged` counts bytes pushed into the flash sink by
`Update.write` since `Update.begin`; `finalizeCalls` counts invocations of
`Update.end()`; `committed` records that `Update.end()` returned true. -/

/-- Mutable device state (globals at lines 2108-2144 plus the flash sink). -/
structure DevState where
  currentVersion : String
  updateInProgress : Bool
  log : List LogEntry
  staged : Nat
  finalizeCalls : Nat
  committed : Bool
  lastTemperature : Option Float
  lastHumidity : Option Float

/-- Effect of `logMessage` (lines 2643-2655) on the history of record calls;
its ring-buffer retention is verified separately in `EventLog`. -/
def logMessage (st : DevState) (level category message : String) : DevState :=
  { st with log := st.log ++ [⟨level, category, message⟩] }

/-- `struct DeviceConfig` (lines 2108-2119). -/
structure DeviceConfig where
  location : String
  deviceName : String
  description : String
  wifiSsid : String
  wifiPassword : String
  autoUpdate : Bool
  updateInterval : Float
  repoOwner : String
  repoName : String
  branch : String

/-- `const char* defaultSsid = "ssid";` (line 2104). -/
def defaultSsid : String := "ssid"

/-- `const char* defaultPassword = "password";` (line 2105). -/
def defaultPassword : String := "password"

/-- The persisted `/config.json` document as `saveConfig` writes it and
`loadConfig` reads it.  ArduinoJson stores typed values per key; a missing
key (`none`) makes the `doc[...] | default` operator fall back, so fields are
`Option`s.  The serialize/parse text round trip of the stored values is
modelled as lossless. -/
structure ConfigDoc where
  location : Option String
  deviceName : Option String
  description : Option String
  wifiSsid : Option String
  wifiPassword : Option String
  autoUpdate : Option Bool
  updateInterval : Option Float
  repoOwner : Option String
  repoName : Option String
  branch : Option String

/-- `saveConfig` (lines 2690-2712): the document written to `/config.json`
(every key present).  The SPIFFS open/close and its failure log are I/O
around this value. -/
def saveConfig (c : DeviceConfig) : ConfigDoc :=
  { location := some c.location
    deviceName := some c.deviceName
    description := some c.description
    wifiSsid := some c.wifiSsid
    wifiPassword := some c.wifiPassword
    autoUpdate := some c.autoUpdate
    updateInterval := some c.updateInterval
    repoOwner := some c.repoOwner
    repoName := some c.repoName
    branch := some c.branch }

/-- `loadConfig` (lines 2657-2688): read the document if the file exists
(`none` = no `/config.json`, keeping the prior in-memory config), apply the
per-key `|` defaults, then the default-WiFi fallback when `wifiSsid` is
empty. -/
def loadConfig (fs : Option ConfigDoc) (prior : DeviceConfig) : DeviceConfig :=
  let c :=
    match fs with
    | some doc =>
        { location := doc.location.getD "default-location"
          deviceName := doc.deviceName.getD "default-device"
          description := doc.description.getD ""
          wifiSsid := doc.wifiSsid.getD ""
          wifiPassword := doc.wifiPassword.getD ""
          autoUpdate := doc.autoUpdate.getD false
          updateInterval := doc.updateInterval.getD 24.0
          repoOwner := doc.repoOwner.getD "TerrifiedBug"
          repoName := doc.repoName.getD "esp32-prometheus-dht22"
          branch := doc.branch.getD "main" }
    | none => prior
  if c.wifiSsid.length = 0 then
    { c with wifiSsid := defaultSsid, wifiPassword := defaultPassword }
  else c

/-- Environment of one sensor poll: the DHT read result (`none` when
`isnan(humidity) || isnan(temperature)`, i.e. a transient fault) and whether
the rate-limited five-minute DEBUG log fires. -/
structure SensorEnv where
  reading : Option (Float × Float)
  logDue : Bool

/-- `readDHT22` (lines 2227-2247): an invalid reading logs at ERROR and sets
both cached values to NAN (modelled `none`); a valid one stores both values
and occasionally logs at DEBUG. -/
def readDHT22 (env : SensorEnv) (st : DevState) : DevState :=
  match env.reading with
  | none =>
      { (logMessage st "ERROR" "SENSOR" "Failed to read from DHT sensor") with
          lastTemperature := none, lastHumidity := none }
  | some (t, h) =>
      let st := { st with lastTemperature := some t, lastHumidity := some h }
      if env.logDue = true then
        logMessage st "DEBUG" "SENSOR"
          ("Sensor read: " ++ toString t ++ "C, " ++ toString h ++ "%")
      else st

/-- One iteration of the download loop's environment: the timeout check
(`millis() - startTime > 300000`), the WiFi status re-check, the socket's
`available()` count, and the byte counts `client->read` / `Update.write`
report (capped in `runLoop` at the amounts requested, as their APIs
guarantee). -/
structure Iter where
  timedOut : Bool
  wifiUp : Bool
  avail : Nat
  readRet : Nat
  writeRet : Nat
deriving DecidableEq, Repr

/-- How the download loop (lines 2815-2846) ended: the `while` condition
turned false (`done`), one of the two `break`s fired (`timeout`, `wifiLost`),
or the modelled iteration trace ran out first (`starved`). -/
inductive LoopExit where
  | done
  | timeout
  | wifiLost
  | starved
deriving DecidableEq, Repr

/-- Result of the download loop: final `written` counter, how the loop ended,
and the log entries emitted inside the loop, in order.  Every `Update.write`
adds its return value to `written`, so the bytes staged into the flash sink
during the loop equal `written`. -/
structure LoopRes where
  written : Nat
  exit : LoopExit
  logAdds : List LogEntry
deriving DecidableEq, Repr

/-- The chunked download loop of `downloadAndInstallUpdate` (lines
2815-2846): `while (written < contentLength)` with a per-iteration timeout
check, WiFi re-check, bounded 1024-byte chunk read, `Update.write`, and a
10%-granularity progress log (`lp` is `lastProgress`). -/
def runLoop (cl : Nat) : List Iter → Nat → Nat → LoopRes
  | [], w, _ =>
      { written := w, exit := if w < cl then .starved else .done, logAdds := [] }
  | it :: rest, w, lp =>
      if w < cl then
        if it.timedOut = true then
          { written := w, exit := .timeout,
            logAdds := [⟨"ERROR", "OTA", "Download timeout after 5 minutes"⟩] }
        else if it.wifiUp = false then
          { written := w, exit := .wifiLost,
            logAdds := [⟨"ERROR", "OTA", "WiFi disconnected during download"⟩] }
        else if 0 < it.avail then
          let toRead := min it.avail 1024
          let bytesRead := min it.readRet toRead
          if 0 < bytesRead then
            let bytesWritten := min it.writeRet bytesRead
            let w2 := w + bytesWritten
            if cl / 10 < w2 - lp then
              let r := runLoop cl rest w2 w2
              { r with logAdds :=
                  ⟨"INFO", "OTA",
                    "Download progress: " ++ toString (w2 * 100 / cl) ++ "%"⟩
                    :: r.logAdds }
            else runLoop cl rest w2 lp
          else runLoop cl rest w lp
        else runLoop cl rest w lp
      else { written := w, exit := .done, logAdds := [] }

/-- Environment of one `downloadAndInstallUpdate` run: the firmware GET's
HTTP code, `http.getSize()`, `ESP.getFreeSketchSpace()`, the results of
`Update.begin` / `Update.end` / `Update.isFinished` / `Update.getError`, and
the per-iteration download trace. -/
structure DlEnv where
  httpCode : Int
  contentLength : Int
  freeSpace : Nat
  canBegin : Bool
  iters : List Iter
  endOk : Bool
  finishedOk : Bool
  updateErr : Nat
deriving DecidableEq, Repr

/-- The release-asset URL built at lines 2772-2773. -/
def firmwareUrl (cfg : DeviceConfig) (version : String) : String :=
  "https://github.com/" ++ cfg.repoOwner ++ "/" ++ cfg.repoName ++
    "/releases/download/" ++ version ++ "/esp32_dht22_prometheus_" ++ version ++ ".bin"

/-- `downloadAndInstallUpdate` (lines 2769-2879), transcribed branch by
branch.  `http.end()` is connection teardown I/O and carries no modelled
state. -/
def downloadAndInstallUpdate (cfg : DeviceConfig) (version : String)
    (env : DlEnv) (st : DevState) : Bool × DevState :=
  let st := { st with updateInProgress := true }
  let st := logMessage st "INFO" "OTA"
    ("Downloading firmware from: " ++ firmwareUrl cfg version)
  if env.httpCode = 200 then
    if 0 < env.contentLength then
      let cl := env.contentLength.toNat
      let st := logMessage st "INFO" "OTA"
        ("Firmware size: " ++ toString cl ++ " bytes")
      let st := logMessage st "INFO" "OTA"
        ("Available space: " ++ toString env.freeSpace ++ " bytes")
      if env.freeSpace < cl then
        let st := logMessage st "ERROR" "OTA"
          ("Not enough space: need " ++ toString cl ++ " bytes, have "
            ++ toString env.freeSpace ++ " bytes")
        (false, { st with updateInProgress := false })
      else if env.canBegin = true then
        let st := logMessage st "INFO" "OTA"
          ("Starting firmware update, size: " ++ toString cl ++ " bytes")
        let r := runLoop cl env.iters 0 0
        let st := { st with log := st.log ++ r.logAdds, staged := st.staged + r.written }
        if r.written = cl then
          let st := logMessage st "INFO" "OTA" "Firmware download completed"
          let st := { st with finalizeCalls := st.finalizeCalls + 1 }
          if env.endOk = true then
            let st := { st with committed := true }
            if env.finishedOk = true then
              let st := logMessage st "INFO" "OTA" "Update successfully completed"
              (true, { st with currentVersion := version, updateInProgress := false })
            else
              let st := logMessage st "ERROR" "OTA" "Update not finished"
              (false, { st with updateInProgress := false })
          else
            let st := logMessage st "ERROR" "OTA"
              ("Update end failed: " ++ toString env.updateErr)
            (false, { st with updateInProgress := false })
        else
          let st := logMessage st "ERROR" "OTA"
            ("Written only " ++ toString r.written ++ "/" ++ toString cl ++ " bytes")
          (false, { st with updateInProgress := false })
      else
        let st := logMessage st "ERROR" "OTA" "Not enough space to begin OTA"
        (false, { st with updateInProgress := false })
    else
      let st := logMessage st "ERROR" "OTA" "Invalid content length"
      (false, { st with updateInProgress := false })
  else
    let st := logMessage st "ERROR" "OTA"
      ("Firmware download failed: " ++ toString env.httpCode)
    (false, { st with updateInProgress := false })

/-- Environment of one update check: the WiFi status, the GitHub API call's
HTTP code, whether the JSON body parsed, the `tag_name` value the parse
yields (empty when the field is absent), and the download environment used if
a transfer starts. -/
structure CheckEnv where
  wifiConnected : Bool
  apiHttpCode : Int
  apiParseOk : Bool
  apiTag : String
  dl : DlEnv

/-- `getLatestGitHubRelease` (lines 2739-2767): empty string encodes
failure. -/
def getLatestGitHubRelease (env : CheckEnv) (st : DevState) : String × DevState :=
  if env.apiHttpCode = 200 then
    if env.apiParseOk = true then
      (env.apiTag, logMessage st "INFO" "OTA" ("Latest release: " ++ env.apiTag))
    else
      ("", logMessage st "ERROR" "OTA" "Failed to parse GitHub API response")
  else
    ("", logMessage st "ERROR" "OTA"
      ("GitHub API request failed: " ++ toString env.apiHttpCode))

/-- `checkForGitHubUpdate` (lines 2715-2737).  The `ESP.restart()` after a
successful install is an unconditional process restart and outside the state
model. -/
def checkForGitHubUpdate (cfg : DeviceConfig) (env : CheckEnv) (st : DevState) :
    DevState :=
  if env.wifiConnected = false then
    logMessage st "ERROR" "OTA" "WiFi not connected, skipping update check"
  else
    let st := logMessage st "INFO" "OTA" "Checking for GitHub updates..."
    let p := getLatestGitHubRelease env st
    let latestVersion := p.1
    let st := p.2
    if 0 < latestVersion.length ∧ latestVersion ≠ st.currentVersion then
      let st := logMessage st "INFO" "OTA"
        ("New version available: " ++ latestVersion
          ++ " (current: " ++ st.currentVersion ++ ")")
      let q := downloadAndInstallUpdate cfg latestVersion env.dl st
      if q.1 = true then
        logMessage q.2 "INFO" "OTA" "Update successful, rebooting..."
      else
        logMessage q.2 "ERROR" "OTA" "Update failed"
    else
      logMessage st "INFO" "OTA"
        ("No updates available (current: " ++ st.currentVersion ++ ")")

/-- Environment of one `/update` request: whether
`server.hasArg("action") && server.arg("action") == "check"`, and the check
environment used if so. -/
structure ReqEnv where
  actionCheck : Bool
  check : CheckEnv

/-- `handleUpdateRequest` (lines 2584-2598).  The redirect / HTML response is
presentation only; no busy-flag guard exists on this path. -/
def handleUpdateRequest (cfg : DeviceConfig) (env : ReqEnv) (st : DevState) :
    DevState :=
  if env.actionCheck = true then
    let st := logMessage st "INFO" "OTA" "Manual update check requested"
    checkForGitHubUpdate cfg env.check st
  else st

/-- The auto-update fragment of `loop` (lines 2184-2190): guarded by
`config.autoUpdate && !updateInProgress` and by the elapsed-interval check
(`intervalElapsed` models `millis() - lastUpdateCheck >= updateIntervalMs`;
`lastUpdateCheck` itself is time bookkeeping outside the model). -/
def loopUpdateStep (cfg : DeviceConfig) (intervalElapsed : Bool)
    (env : CheckEnv) (st : DevState) : DevState :=
  if cfg.autoUpdate = true ∧ st.updateInProgress = false then
    if intervalElapsed = true then checkForGitHubUpdate cfg env st else st
  else st

/-! Concrete inputs used by witnesses and counterexamples. -/

/-- A concrete configuration with a non-empty `wifiSsid`. -/
def cfgEx : DeviceConfig :=
  { location := "office", deviceName := "sensor-01", description := ""
    wifiSsid := "home-wifi", wifiPassword := "pw", autoUpdate := false
    updateInterval := 24.0, repoOwner := "TerrifiedBug"
    repoName := "esp32-prometheus-dht22", branch := "main" }

/-- A concrete configuration whose `wifiSsid` is empty. -/
def cfgNoSsid : DeviceConfig :=
  { location := "loc", deviceName := "dev", description := ""
    wifiSsid := "", wifiPassword := "", autoUpdate := false
    updateInterval := 24.0, repoOwner := "o", repoName := "r", branch := "main" }

/-- A concrete idle device state. -/
def stEx : DevState :=
  { currentVersion := "v1.0.0", updateInProgress := false, log := []
    staged := 0, finalizeCalls := 0, committed := false
    lastTemperature := none, lastHumidity := none }

/-- A device state whose busy flag `updateInProgress` is set. -/
def stBusy : DevState :=
  { currentVersion := "v1.0.0", updateInProgress := true, log := []
    staged := 0, finalizeCalls := 0, committed := false
    lastTemperature := none, lastHumidity := none }

/-- A device state holding a previously cached valid sensor reading. -/
def stCached : DevState :=
  { currentVersion := "v1.0.0", updateInProgress := false, log := []
    staged := 0, finalizeCalls := 0, committed := false
    lastTemperature := some 25.0, lastHumidity := some 40.0 }

/-- A download environment that is never reached in the runs that use it. -/
def dlDummy : DlEnv :=
  { httpCode := 200, contentLength := 0, freeSpace := 0, canBegin := false
    iters := [], endOk := false, finishedOk := false, updateErr := 0 }

/-- Download environment for C2's witness: 4096 declared bytes but only 1024
bytes of free sketch space. -/
def dlEnvSpace : DlEnv :=
  { httpCode := 200, contentLength := 4096, freeSpace := 1024, canBegin := true
    iters := [], endOk := true, finishedOk := true, updateErr := 0 }

/-- Download environment for C1's witness: all 4 declared bytes arrive in one
iteration, then `Update.end()` fails. -/
def dlEnvFinalizeFail : DlEnv :=
  { httpCode := 200, contentLength := 4, freeSpace := 10, canBegin := true
    iters := [{ timedOut := false, wifiUp := true, avail := 4, readRet := 4, writeRet := 4 }]
    endOk := false, finishedOk := false, updateErr := 7 }

/-- Download environment for C3's witness: 2 of 5 declared bytes arrive, then
WiFi drops on the next iteration's re-check. -/
def dlEnvWifiLoss : DlEnv :=
  { httpCode := 200, contentLength := 5, freeSpace := 10, canBegin := true
    iters := [{ timedOut := false, wifiUp := true, avail := 2, readRet := 2, writeRet := 2 },
              { timedOut := false, wifiUp := false, avail := 0, readRet := 0, writeRet := 0 }]
    endOk := true, finishedOk := true, updateErr := 0 }

/-- Check environment for C4's witness: resolver succeeds and returns the
running version. -/
def envNoUpdate : CheckEnv :=
  { wifiConnected := true, apiHttpCode := 200, apiParseOk := true
    apiTag := "v1.0.0", dl := dlDummy }

/-- Check environment for C5: the GitHub API call fails with HTTP 404. -/
def envApi404 : CheckEnv :=
  { wifiConnected := true, apiHttpCode := 404, apiParseOk := true
    apiTag := "", dl := dlDummy }

/-- Check environment for C5: the GitHub API call returns 200 but the JSON
body does not parse (`deserializeJson` reports an error). -/
def envParseFail : CheckEnv :=
  { wifiConnected := true, apiHttpCode := 200, apiParseOk := false
    apiTag := "", dl := dlDummy }

/-- Manual `/update?action=check` request used against the busy state for C6
(its check finds WiFi down, so the run it wrongly starts ends immediately). -/
def envBusyReq : ReqEnv :=
  { actionCheck := true
    check := { wifiConnected := false, apiHttpCode := 200, apiParseOk := true
               apiTag := "v2.0.0", dl := dlDummy } }

/-- A failed sensor poll (the DHT read returned NaN). -/
def envBadRead : SensorEnv := { reading := none, logDue := false }

/-! Proof development.  First the ring-buffer semantics of the event log
(claim C7), then the OTA / config / sensor claims. -/

namespace EventLog

lemma getD_set_ne {A : Type} (l : List A) (i j : Nat) (a d : A) (h : i ≠ j) :
    (l.set i a).getD j d = l.getD j d := by
  simp [List.getD_eq_getElem?_getD, List.getElem?_set_ne h]

lemma getD_set_self {α : Type} (l : List α) (i : Nat) (a d : α) (h : i < l.length) :
    (l.set i a).getD i d = a := by
  simp [List.getD_eq_getElem?_getD, List.getElem?_set_self, h]

lemma add_mod_ne_self {M idx s : Nat} (hidx : idx < M) (h0 : 0 < s) (hs : s < M) :
    (idx + s) % M ≠ idx := by
  intro h
  rcases Nat.lt_or_ge (idx + s) M with hlt | hge
  · rw [Nat.mod_eq_of_lt hlt] at h; omega
  · rw [Nat.mod_eq_sub_mod hge, Nat.mod_eq_of_lt (by omega)] at h; omega

lemma foldl_logCount (es : List LogEntry) :
    ∀ st : RingState, (es.foldl logMessage st).logCount = st.logCount + es.length := by
  induction es with
  | nil => intro st; simp
  | cons e tl ih =>
      intro st
      rw [List.foldl_cons, ih (logMessage st e)]
      simp [logMessage]
      omega

lemma foldl_logIndex (es : List LogEntry) :
    ∀ st : RingState, st.logIndex < MAX_LOG_ENTRIES →
      (es.foldl logMessage st).logIndex = (st.logIndex + es.length) % MAX_LOG_ENTRIES := by
  induction es with
  | nil => intro st h; simp [Nat.mod_eq_of_lt h]
  | cons e tl ih =>
      intro st h
      have hM : 0 < MAX_LOG_ENTRIES := by decide
      rw [List.foldl_cons, ih (logMessage st e) (Nat.mod_lt _ hM)]
      show ((st.logIndex + 1) % MAX_LOG_ENTRIES + tl.length) % MAX_LOG_ENTRIES = _
      rw [Nat.mod_add_mod]
      congr 1
      simp [List.length_cons]
      omega

lemma foldl_buffer_length (es : List LogEntry) :
    ∀ st : RingState, (es.foldl logMessage st).buffer.length = st.buffer.length := by
  induction es with
  | nil => intro st; simp
  | cons e tl ih =>
      intro st
      rw [List.foldl_cons, ih (logMessage st e)]
      simp [logMessage]

/-- Frame: a fold of writes whose cursor never passes through slot `j` leaves
slot `j` untouched. -/
lemma foldl_buffer_frame (es : List LogEntry) :
    ∀ (st : RingState) (j : Nat) (d : LogEntry), st.logIndex < MAX_LOG_ENTRIES →
      (∀ i < es.length, (st.logIndex + i) % MAX_LOG_ENTRIES ≠ j) →
      (es.foldl logMessage st).buffer.getD j d = st.buffer.getD j d := by
  induction es with
  | nil => intro st j d _ _; rfl
  | cons e tl ih =>
      intro st j d hidx hmiss
      have hM : 0 < MAX_LOG_ENTRIES := by decide
      rw [List.foldl_cons]
      have hj : st.logIndex ≠ j := by
        have := hmiss 0 (by simp)
        simpa [Nat.mod_eq_of_lt hidx] using this
      rw [ih (logMessage st e) j d (Nat.mod_lt _ hM) ?_]
      · exact getD_set_ne _ _ _ _ _ hj
      · intro i hi
        show ((st.logIndex + 1) % MAX_LOG_ENTRIES + i) % MAX_LOG_ENTRIES ≠ j
        have hrw : ((st.logIndex + 1) % MAX_LOG_ENTRIES + i) % MAX_LOG_ENTRIES
            = (st.logIndex + (i + 1)) % MAX_LOG_ENTRIES := by
          rw [Nat.mod_add_mod]; congr 1; omega
        rw [hrw]
        exact hmiss (i + 1) (by simpa using Nat.succ_lt_succ hi)

/-- Slot contents after a fold: write number `k` (0-based) lands in slot
`(logIndex + k) % MAX_LOG_ENTRIES`, and survives there as long as it is among
the last `MAX_LOG_ENTRIES` writes of the history. -/
lemma foldl_buffer_slot (es : List LogEntry) :
    ∀ (st : RingState) (k : Nat) (d : LogEntry),
      st.logIndex < MAX_LOG_ENTRIES →
      st.buffer.length = MAX_LOG_ENTRIES →
      k < es.length → es.length ≤ k + MAX_LOG_ENTRIES →
      (es.foldl logMessage st).buffer.getD
          ((st.logIndex + k) % MAX_LOG_ENTRIES) d = es.getD k d := by
  induction es with
  | nil => intro st k d _ _ hk _; simp at hk
  | cons e tl ih =>
      intro st k d hidx hlen hk hlast
      have hM : 0 < MAX_LOG_ENTRIES := by decide
      rw [List.foldl_cons]
      match k with
      | 0 =>
          have hslot : (st.logIndex + 0) % MAX_LOG_ENTRIES = st.logIndex := by
            simp [Nat.mod_eq_of_lt hidx]
          rw [hslot]
          rw [foldl_buffer_frame tl (logMessage st e) st.logIndex d (Nat.mod_lt _ hM) ?_]
          · show (st.buffer.set st.logIndex e).getD st.logIndex d = _
            rw [getD_set_self _ _ _ _ (hlen ▸ hidx)]
            rfl
          · intro i hi
            show ((st.logIndex + 1) % MAX_LOG_ENTRIES + i) % MAX_LOG_ENTRIES ≠ st.logIndex
            have hrw : ((st.logIndex + 1) % MAX_LOG_ENTRIES + i) % MAX_LOG_ENTRIES
                = (st.logIndex + (i + 1)) % MAX_LOG_ENTRIES := by
              rw [Nat.mod_add_mod]; congr 1; omega
            rw [hrw]
            apply add_mod_ne_self hidx (by omega)
            have : tl.length ≤ MAX_LOG_ENTRIES - 1 := by
              simp only [List.length_cons] at hlast; omega
            omega
      | k + 1 =>
          have h2 : (logMessage st e).logIndex = (st.logIndex + 1) % MAX_LOG_ENTRIES := rfl
          have hthis := ih (logMessage st e) k d (Nat.mod_lt _ hM)
            (by simp [logMessage, hlen])
            (by simpa using Nat.lt_of_succ_lt_succ hk)
            (by simp only [List.length_cons] at hlast; omega)
          rw [h2, Nat.mod_add_mod] at hthis
          have hrw : (st.logIndex + (k + 1)) % MAX_LOG_ENTRIES
              = (st.logIndex + 1 + k) % MAX_LOG_ENTRIES := by congr 1; omega
          rw [hrw]
          simpa using hthis

lemma runLog_logCount (es : List LogEntry) : (runLog es).logCount = es.length := by
  simpa [initState] using foldl_logCount es initState

lemma runLog_logIndex (es : List LogEntry) :
    (runLog es).logIndex = es.length % MAX_LOG_ENTRIES := by
  simpa [initState] using foldl_logIndex es initState (by decide)

lemma runLog_slot (es : List LogEntry) (k : Nat) (d : LogEntry)
    (hk : k < es.length) (hlast : es.length ≤ k + MAX_LOG_ENTRIES) :
    (runLog es).buffer.getD (k % MAX_LOG_ENTRIES) d = es.getD k d := by
  simpa [initState] using
    foldl_buffer_slot es initState k d (by decide) (by simp [initState]) hk hlast

lemma generateLogsEntries_eq (st : RingState) :
    generateLogsEntries st =
      (List.range (min st.logCount MAX_LOG_ENTRIES)).map fun i =>
        st.buffer.getD
          (((if MAX_LOG_ENTRIES < st.logCount then st.logIndex else 0) + i)
            % MAX_LOG_ENTRIES) ⟨"", "", ""⟩ := rfl

/-- C7: after `N` calls to `logMessage`, `generateLogsText` shows exactly
`MAX_LOG_ENTRIES` entries in chronological order starting at the write cursor
when `N > MAX_LOG_ENTRIES` (the survivors being writes `N-MAX_LOG_ENTRIES+1 …
N`, so the list equals the history with its first `N - MAX_LOG_ENTRIES`
writes dropped and its head is write number `N - MAX_LOG_ENTRIES + 1`), and
shows all `N` entries starting from buffer index 0 when `N ≤ MAX_LOG_ENTRIES`. -/
theorem generateLogs_ring_semantics (es : List LogEntry) :
    (MAX_LOG_ENTRIES < es.length →
      generateLogsEntries (runLog es) = es.drop (es.length - MAX_LOG_ENTRIES) ∧
      (generateLogsEntries (runLog es)).length = MAX_LOG_ENTRIES ∧
      (generateLogsEntries (runLog es)).head? = es[es.length - MAX_LOG_ENTRIES]?) ∧
    (es.length ≤ MAX_LOG_ENTRIES → generateLogsEntries (runLog es) = es) := by
  have hcount := runLog_logCount es
  have hindex := runLog_logIndex es
  constructor
  · intro hN
    have hdrop : generateLogsEntries (runLog es)
        = es.drop (es.length - MAX_LOG_ENTRIES) := by
      rw [generateLogsEntries_eq, hcount, hindex, if_pos hN,
        min_eq_right (le_of_lt hN)]
      apply List.ext_getElem
      · simp
        omega
      · intro i h1 h2
        simp only [List.getElem_map, List.getElem_range]
        have hi : i < MAX_LOG_ENTRIES := by simpa using h1
        have hrw : (es.length % MAX_LOG_ENTRIES + i) % MAX_LOG_ENTRIES
            = (es.length - MAX_LOG_ENTRIES + i) % MAX_LOG_ENTRIES := by
          rw [Nat.mod_eq_sub_mod (le_of_lt hN), Nat.mod_add_mod]
        have hk : es.length - MAX_LOG_ENTRIES + i < es.length := by omega
        rw [hrw, runLog_slot es _ _ hk (by omega),
          List.getD_eq_getElem _ _ hk]
        simp [List.getElem_drop]
    refine ⟨hdrop, ?_, ?_⟩
    · rw [hdrop]
      simp
      omega
    · rw [hdrop, List.head?_drop]
  · intro hN
    rw [generateLogsEntries_eq, hcount, hindex, if_neg (by omega),
      min_eq_left hN]
    apply List.ext_getElem
    · simp
    · intro i h1 h2
      simp only [List.getElem_map, List.getElem_range]
      have hi : i < es.length := by simpa using h1
      rw [Nat.zero_add, runLog_slot es i _ hi (by omega)]
      exact List.getD_eq_getElem _ _ hi

theorem generateLogs_ring_semantics_witness :
    MAX_LOG_ENTRIES < (sampleHistory 52).length ∧
    generateLogsEntries (runLog (sampleHistory 52))
      = (sampleHistory 52).drop ((sampleHistory 52).length - MAX_LOG_ENTRIES) ∧
    (sampleHistory 3).length ≤ MAX_LOG_ENTRIES ∧
    generateLogsEntries (runLog (sampleHistory 3)) = sampleHistory 3 :=
  ⟨by decide,
   ((generateLogs_ring_semantics (sampleHistory 52)).1 (by decide)).1,
   by decide,
   (generateLogs_ring_semantics (sampleHistory 3)).2 (by decide)⟩

end EventLog

/-- C10: on every return path of `downloadAndInstallUpdate` — insufficient
space, bad status, invalid content length, timeout, WiFi loss, short write,
failed finalize, and full success — the busy flag `updateInProgress` is false
in the returned state. -/
theorem downloadAndInstallUpdate_clears_busy (cfg : DeviceConfig)
    (version : String) (env : DlEnv) (st : DevState) :
    (downloadAndInstallUpdate cfg version env st).2.updateInProgress = false := by
  simp only [downloadAndInstallUpdate, logMessage]
  split_ifs <;> rfl

/-- C9 (amended): a sensor poll returning an invalid reading overwrites the
cached temperature and humidity with NaN (`none`) — invalidating the cache
rather than retaining the previous values — and logs one SENSOR error. -/
theorem readDHT22_fault_invalidates (env : SensorEnv) (st : DevState)
    (h : env.reading = none) :
    (readDHT22 env st).lastTemperature = none ∧
    (readDHT22 env st).lastHumidity = none ∧
    (readDHT22 env st).log
      = st.log ++ [⟨"ERROR", "SENSOR", "Failed to read from DHT sensor"⟩] ∧
    (readDHT22 env st).currentVersion = st.currentVersion := by
  simp [readDHT22, h, logMessage]

/-- Witness for C9 (amended) at a concrete failed poll. -/
theorem readDHT22_fault_invalidates_witness :
    envBadRead.reading = none ∧
    (readDHT22 envBadRead stEx).lastTemperature = none ∧
    (readDHT22 envBadRead stEx).lastHumidity = none :=
  ⟨rfl, (readDHT22_fault_invalidates envBadRead stEx rfl).1,
   (readDHT22_fault_invalidates envBadRead stEx rfl).2.1⟩

/-- C9 counterexample: with cached reading `some 25.0` and a failed poll, the
cached temperature is overwritten (becomes `none`), not left in place. -/
theorem readDHT22_fault_cex :
    stCached.lastTemperature = some 25.0 ∧
    (readDHT22 envBadRead stCached).lastTemperature ≠ stCached.lastTemperature := by
  refine ⟨rfl, fun h => ?_⟩
  rw [show (readDHT22 envBadRead stCached).lastTemperature = none from rfl] at h
  rw [show stCached.lastTemperature = some 25.0 from rfl] at h
  exact Option.noConfusion h

/-- C2: a transfer whose declared content length exceeds the free sketch
space fails before any byte is written: result is failure, the flash sink
receives zero writes (`staged` unchanged, `Update.end` never called), the
version is untouched, and the run logs the insufficient-space error. -/
theorem transfer_insufficient_space (cfg : DeviceConfig) (version : String)
    (env : DlEnv) (st : DevState) (hcode : env.httpCode = 200)
    (hlen : 0 < env.contentLength)
    (hspace : env.freeSpace < env.contentLength.toNat) :
    (downloadAndInstallUpdate cfg version env st).1 = false ∧
    (downloadAndInstallUpdate cfg version env st).2.staged = st.staged ∧
    (downloadAndInstallUpdate cfg version env st).2.finalizeCalls = st.finalizeCalls ∧
    (downloadAndInstallUpdate cfg version env st).2.committed = st.committed ∧
    (downloadAndInstallUpdate cfg version env st).2.currentVersion = st.currentVersion ∧
    (downloadAndInstallUpdate cfg version env st).2.log
      = st.log ++
        [⟨"INFO", "OTA", "Downloading firmware from: " ++ firmwareUrl cfg version⟩,
         ⟨"INFO", "OTA", "Firmware size: " ++ toString env.contentLength.toNat ++ " bytes"⟩,
         ⟨"INFO", "OTA", "Available space: " ++ toString env.freeSpace ++ " bytes"⟩,
         ⟨"ERROR", "OTA",
           "Not enough space: need " ++ toString env.contentLength.toNat
             ++ " bytes, have " ++ toString env.freeSpace ++ " bytes"⟩] := by
  simp only [downloadAndInstallUpdate, logMessage]
  rw [if_pos hcode, if_pos hlen, if_pos hspace]
  refine ⟨rfl, rfl, rfl, rfl, rfl, by simp⟩

/-- Witness for C2 at a concrete environment (4096 bytes declared, 1024
free). -/
theorem transfer_insufficient_space_witness :
    dlEnvSpace.httpCode = 200 ∧ 0 < dlEnvSpace.contentLength ∧
    dlEnvSpace.freeSpace < dlEnvSpace.contentLength.toNat ∧
    (downloadAndInstallUpdate cfgEx "v1.1.0" dlEnvSpace stEx).1 = false ∧
    (downloadAndInstallUpdate cfgEx "v1.1.0" dlEnvSpace stEx).2.staged = stEx.staged :=
  ⟨rfl, by decide, by decide,
   (transfer_insufficient_space cfgEx "v1.1.0" dlEnvSpace stEx rfl (by decide)
     (by decide)).1,
   (transfer_insufficient_space cfgEx "v1.1.0" dlEnvSpace stEx rfl (by decide)
     (by decide)).2.1⟩

/-- C1: a transfer that completes with `written == contentLength` but whose
finalize step fails (`Update.end()` returns false, or `Update.isFinished()`
is false) is reported as a failure — not success — with an OTA ERROR entry,
and `currentVersion` is unchanged. -/
theorem transfer_finalize_failure (cfg : DeviceConfig) (version : String)
    (env : DlEnv) (st : DevState) (hcode : env.httpCode = 200)
    (hlen : 0 < env.contentLength)
    (hspace : env.contentLength.toNat ≤ env.freeSpace)
    (hbegin : env.canBegin = true)
    (hdone : (runLoop env.contentLength.toNat env.iters 0 0).written
      = env.contentLength.toNat)
    (hfail : ¬(env.endOk = true ∧ env.finishedOk = true)) :
    (downloadAndInstallUpdate cfg version env st).1 = false ∧
    (downloadAndInstallUpdate cfg version env st).2.currentVersion
      = st.currentVersion ∧
    ∃ e ∈ (downloadAndInstallUpdate cfg version env st).2.log.drop st.log.length,
      e.level = "ERROR" ∧ e.category = "OTA" := by
  simp only [downloadAndInstallUpdate, logMessage]
  rw [if_pos hcode, if_pos hlen, if_neg (not_lt.mpr hspace), if_pos hbegin,
    if_pos hdone]
  by_cases hend : env.endOk = true
  · have hfin : ¬env.finishedOk = true := fun hf => hfail ⟨hend, hf⟩
    rw [if_pos hend, if_neg hfin]
    refine ⟨rfl, rfl, ⟨"ERROR", "OTA", "Update not finished"⟩, ?_, rfl, rfl⟩
    simp [List.append_assoc, List.drop_left]
  · rw [if_neg hend]
    refine ⟨rfl, rfl,
      ⟨"ERROR", "OTA", "Update end failed: " ++ toString env.updateErr⟩, ?_, rfl, rfl⟩
    simp [List.append_assoc, List.drop_left]

/-- Witness for C1 at a concrete run: 4 declared bytes all arrive, then
`Update.end()` fails. -/
theorem transfer_finalize_failure_witness :
    dlEnvFinalizeFail.httpCode = 200 ∧ 0 < dlEnvFinalizeFail.contentLength ∧
    dlEnvFinalizeFail.contentLength.toNat ≤ dlEnvFinalizeFail.freeSpace ∧
    dlEnvFinalizeFail.canBegin = true ∧
    (runLoop dlEnvFinalizeFail.contentLength.toNat dlEnvFinalizeFail.iters 0 0).written
      = dlEnvFinalizeFail.contentLength.toNat ∧
    ¬(dlEnvFinalizeFail.endOk = true ∧ dlEnvFinalizeFail.finishedOk = true) ∧
    (downloadAndInstallUpdate cfgEx "v1.1.0" dlEnvFinalizeFail stEx).1 = false ∧
    (downloadAndInstallUpdate cfgEx "v1.1.0" dlEnvFinalizeFail stEx).2.currentVersion
      = stEx.currentVersion :=
  ⟨rfl, by decide, by decide, rfl, by decide, by decide,
   (transfer_finalize_failure cfgEx "v1.1.0" dlEnvFinalizeFail stEx rfl (by decide)
     (by decide) rfl (by decide) (by decide)).1,
   (transfer_finalize_failure cfgEx "v1.1.0" dlEnvFinalizeFail stEx rfl (by decide)
     (by decide) rfl (by decide) (by decide)).2.1⟩

lemma runLoop_wifiLost (cl : Nat) (iters : List Iter) :
    ∀ w lp, (runLoop cl iters w lp).exit = LoopExit.wifiLost →
      (runLoop cl iters w lp).written < cl ∧
      (⟨"ERROR", "OTA", "WiFi disconnected during download"⟩ : LogEntry)
        ∈ (runLoop cl iters w lp).logAdds := by
  induction iters with
  | nil =>
      intro w lp h
      simp only [runLoop] at h
      split at h <;> simp at h
  | cons it rest ih =>
      intro w lp h
      simp only [runLoop] at h ⊢
      split_ifs at h ⊢ with h1 h2 h3 h4 h5 h6
      · exact ⟨h1, by simp⟩
      · exact ⟨(ih _ _ h).1, List.mem_cons_of_mem _ (ih _ _ h).2⟩
      · exact ih _ _ h
      · exact ih _ _ h
      · exact ih _ _ h

/-- C3: a transfer in which the per-iteration WiFi re-check fails after a
strict prefix of the declared bytes was written ends in failure: the result
is false, `currentVersion` is unchanged, the sink is never finalized
(`Update.end` not called, nothing committed), and the WiFi-loss error is
logged. -/
theorem transfer_wifi_loss (cfg : DeviceConfig) (version : String)
    (env : DlEnv) (st : DevState) (hcode : env.httpCode = 200)
    (hlen : 0 < env.contentLength)
    (hspace : env.contentLength.toNat ≤ env.freeSpace)
    (hbegin : env.canBegin = true)
    (hlost : (runLoop env.contentLength.toNat env.iters 0 0).exit
      = LoopExit.wifiLost) :
    (downloadAndInstallUpdate cfg version env st).1 = false ∧
    (downloadAndInstallUpdate cfg version env st).2.currentVersion
      = st.currentVersion ∧
    (downloadAndInstallUpdate cfg version env st).2.finalizeCalls
      = st.finalizeCalls ∧
    (downloadAndInstallUpdate cfg version env st).2.committed = st.committed ∧
    (⟨"ERROR", "OTA", "WiFi disconnected during download"⟩ : LogEntry)
      ∈ (downloadAndInstallUpdate cfg version env st).2.log := by
  obtain ⟨hlt, hmem⟩ := runLoop_wifiLost env.contentLength.toNat env.iters 0 0 hlost
  simp only [downloadAndInstallUpdate, logMessage]
  rw [if_pos hcode, if_pos hlen, if_neg (not_lt.mpr hspace), if_pos hbegin,
    if_neg (Nat.ne_of_lt hlt)]
  refine ⟨rfl, rfl, rfl, rfl, ?_⟩
  simp [List.mem_append, hmem]

/-- Witness for C3 at a concrete run: 2 of 5 declared bytes written, then the
WiFi re-check fails. -/
theorem transfer_wifi_loss_witness :
    dlEnvWifiLoss.httpCode = 200 ∧ 0 < dlEnvWifiLoss.contentLength ∧
    dlEnvWifiLoss.contentLength.toNat ≤ dlEnvWifiLoss.freeSpace ∧
    dlEnvWifiLoss.canBegin = true ∧
    (runLoop dlEnvWifiLoss.contentLength.toNat dlEnvWifiLoss.iters 0 0).exit
      = LoopExit.wifiLost ∧
    (downloadAndInstallUpdate cfgEx "v1.1.0" dlEnvWifiLoss stEx).1 = false ∧
    (downloadAndInstallUpdate cfgEx "v1.1.0" dlEnvWifiLoss stEx).2.committed
      = stEx.committed :=
  ⟨rfl, by decide, by decide, rfl, by decide,
   (transfer_wifi_loss cfgEx "v1.1.0" dlEnvWifiLoss stEx rfl (by decide) (by decide)
     rfl (by decide)).1,
   (transfer_wifi_loss cfgEx "v1.1.0" dlEnvWifiLoss stEx rfl (by decide) (by decide)
     rfl (by decide)).2.2.2.1⟩

/-- C4: when the resolver succeeds and returns the running version, the check
is a no-op success: no transfer is started, every state field other than the
log is untouched, and the run appends exactly the checking entry, the
resolver's INFO entry, and one INFO no-update entry. -/
theorem check_no_update_needed (cfg : DeviceConfig) (env : CheckEnv)
    (st : DevState) (hwifi : env.wifiConnected = true)
    (hcode : env.apiHttpCode = 200) (hparse : env.apiParseOk = true)
    (htag : env.apiTag = st.currentVersion) :
    checkForGitHubUpdate cfg env st =
      { st with log := st.log ++
          [⟨"INFO", "OTA", "Checking for GitHub updates..."⟩,
           ⟨"INFO", "OTA", "Latest release: " ++ st.currentVersion⟩,
           ⟨"INFO", "OTA",
             "No updates available (current: " ++ st.currentVersion ++ ")"⟩] } := by
  simp only [checkForGitHubUpdate, getLatestGitHubRelease, logMessage]
  rw [if_neg (by simp [hwifi]), if_pos hcode, if_pos hparse,
    if_neg (fun hc => hc.2 htag)]
  simp [htag, List.append_assoc]

/-- Witness for C4 at a concrete check whose resolver returns the running
version `v1.0.0`. -/
theorem check_no_update_needed_witness :
    envNoUpdate.wifiConnected = true ∧ envNoUpdate.apiHttpCode = 200 ∧
    envNoUpdate.apiParseOk = true ∧ envNoUpdate.apiTag = stEx.currentVersion ∧
    checkForGitHubUpdate cfgEx envNoUpdate stEx =
      { stEx with log := stEx.log ++
          [⟨"INFO", "OTA", "Checking for GitHub updates..."⟩,
           ⟨"INFO", "OTA", "Latest release: " ++ stEx.currentVersion⟩,
           ⟨"INFO", "OTA",
             "No updates available (current: " ++ stEx.currentVersion ++ ")"⟩] } :=
  ⟨rfl, rfl, rfl, rfl, check_no_update_needed cfgEx envNoUpdate stEx rfl rfl rfl rfl⟩

/-- C5 (amended): a resolver failure — HTTP status not 200, or a body that
does not parse — logs the corresponding OTA ERROR entry and starts no
transfer (every non-log field, `currentVersion` included, is unchanged), but
`checkForGitHubUpdate` then ends the run by logging the same INFO "No updates
available" entry as the no-op-success path; there is no distinct failed
outcome at the orchestrator level. -/
theorem check_resolver_error_reported_as_noop (cfg : DeviceConfig)
    (env : CheckEnv) (st : DevState) (hwifi : env.wifiConnected = true)
    (hfail : env.apiHttpCode ≠ 200 ∨ env.apiParseOk = false) :
    checkForGitHubUpdate cfg env st =
      { st with log := st.log ++
          [⟨"INFO", "OTA", "Checking for GitHub updates..."⟩,
           if env.apiHttpCode = 200 then
             ⟨"ERROR", "OTA", "Failed to parse GitHub API response"⟩
           else
             ⟨"ERROR", "OTA",
               "GitHub API request failed: " ++ toString env.apiHttpCode⟩,
           ⟨"INFO", "OTA",
             "No updates available (current: " ++ st.currentVersion ++ ")"⟩] } := by
  by_cases hcode : env.apiHttpCode = 200
  · have hparse : env.apiParseOk = false := by
      rcases hfail with h | h
      · exact absurd hcode h
      · exact h
    simp only [checkForGitHubUpdate, getLatestGitHubRelease, logMessage]
    rw [if_neg (by simp [hwifi]), if_pos hcode,
      if_neg (show ¬(env.apiParseOk = true) from fun hc => by
        rw [hparse] at hc; exact Bool.noConfusion hc),
      if_neg (fun hc => by try dsimp only at hc; exact absurd hc.1 (by decide)),
      if_pos hcode]
    simp [List.append_assoc]
  · simp only [checkForGitHubUpdate, getLatestGitHubRelease, logMessage]
    rw [if_neg (by simp [hwifi]), if_neg hcode,
      if_neg (fun hc => by dsimp only at hc; exact absurd hc.1 (by decide)),
      if_neg hcode]
    simp [List.append_assoc]

/-- Witness for C5's amended statement at two concrete resolver failures: an
HTTP 404, and a 200 response whose body does not parse. -/
theorem check_resolver_error_reported_as_noop_witness :
    envApi404.wifiConnected = true ∧
    (envApi404.apiHttpCode ≠ 200 ∨ envApi404.apiParseOk = false) ∧
    checkForGitHubUpdate cfgEx envApi404 stEx =
      { stEx with log := stEx.log ++
          [⟨"INFO", "OTA", "Checking for GitHub updates..."⟩,
           if envApi404.apiHttpCode = 200 then
             ⟨"ERROR", "OTA", "Failed to parse GitHub API response"⟩
           else
             ⟨"ERROR", "OTA",
               "GitHub API request failed: " ++ toString envApi404.apiHttpCode⟩,
           ⟨"INFO", "OTA",
             "No updates available (current: " ++ stEx.currentVersion ++ ")"⟩] } ∧
    envParseFail.wifiConnected = true ∧
    (envParseFail.apiHttpCode ≠ 200 ∨ envParseFail.apiParseOk = false) ∧
    checkForGitHubUpdate cfgEx envParseFail stEx =
      { stEx with log := stEx.log ++
          [⟨"INFO", "OTA", "Checking for GitHub updates..."⟩,
           if envParseFail.apiHttpCode = 200 then
             ⟨"ERROR", "OTA", "Failed to parse GitHub API response"⟩
           else
             ⟨"ERROR", "OTA",
               "GitHub API request failed: " ++ toString envParseFail.apiHttpCode⟩,
           ⟨"INFO", "OTA",
             "No updates available (current: " ++ stEx.currentVersion ++ ")"⟩] } :=
  ⟨rfl, Or.inl (by decide),
   check_resolver_error_reported_as_noop cfgEx envApi404 stEx rfl
     (Or.inl (by decide)),
   rfl, Or.inr rfl,
   check_resolver_error_reported_as_noop cfgEx envParseFail stEx rfl
     (Or.inr rfl)⟩

/-- C5 counterexample: on a concrete HTTP 404 resolver failure, the run's
final log entry is exactly the INFO "No updates available" no-op-success
report — contradicting the claim that such a run is not reported as a no-op
success. -/
theorem check_resolver_failure_cex :
    envApi404.apiHttpCode ≠ 200 ∧
    (checkForGitHubUpdate cfgEx envApi404 stEx).log.getLast?
      = some ⟨"INFO", "OTA", "No updates available (current: v1.0.0)"⟩ := by
  exact ⟨by decide, by decide⟩

lemma downloadAndInstallUpdate_log_extends (cfg : DeviceConfig)
    (version : String) (env : DlEnv) (st : DevState) :
    ∃ l, (downloadAndInstallUpdate cfg version env st).2.log = st.log ++ l := by
  simp only [downloadAndInstallUpdate, logMessage]
  split_ifs <;> exact ⟨_, by simp; try rfl⟩

lemma getLatestGitHubRelease_log_extends (env : CheckEnv) (st : DevState) :
    ∃ l, (getLatestGitHubRelease env st).2.log = st.log ++ l := by
  simp only [getLatestGitHubRelease, logMessage]
  split_ifs <;> exact ⟨_, by simp; try rfl⟩

lemma checkForGitHubUpdate_log_extends (cfg : DeviceConfig) (env : CheckEnv)
    (st : DevState) :
    ∃ l, (checkForGitHubUpdate cfg env st).log = st.log ++ l := by
  simp only [checkForGitHubUpdate]
  by_cases hw : env.wifiConnected = false
  · rw [if_pos hw]
    exact ⟨_, rfl⟩
  · rw [if_neg hw]
    set P := getLatestGitHubRelease env
      (logMessage st "INFO" "OTA" "Checking for GitHub updates...") with hP
    obtain ⟨l1, hl1⟩ := getLatestGitHubRelease_log_extends env
      (logMessage st "INFO" "OTA" "Checking for GitHub updates...")
    rw [← hP] at hl1
    by_cases hc : 0 < P.1.length ∧ P.1 ≠ P.2.currentVersion
    · rw [if_pos hc]
      set Q := downloadAndInstallUpdate cfg P.1 env.dl
        (logMessage P.2 "INFO" "OTA"
          ("New version available: " ++ P.1 ++ " (current: "
            ++ P.2.currentVersion ++ ")")) with hQ
      obtain ⟨l2, hl2⟩ := downloadAndInstallUpdate_log_extends cfg P.1 env.dl
        (logMessage P.2 "INFO" "OTA"
          ("New version available: " ++ P.1 ++ " (current: "
            ++ P.2.currentVersion ++ ")"))
      rw [← hQ] at hl2
      by_cases hq : Q.1 = true
      · rw [if_pos hq]
        refine ⟨[⟨"INFO", "OTA", "Checking for GitHub updates..."⟩] ++ l1
          ++ [⟨"INFO", "OTA", "New version available: " ++ P.1 ++ " (current: "
                ++ P.2.currentVersion ++ ")"⟩]
          ++ l2 ++ [⟨"INFO", "OTA", "Update successful, rebooting..."⟩], ?_⟩
        rw [show (logMessage Q.2 "INFO" "OTA" "Update successful, rebooting...").log
            = Q.2.log ++ [(⟨"INFO", "OTA", "Update successful, rebooting..."⟩ : LogEntry)]
            from rfl, hl2]
        dsimp only [logMessage] at hl1 ⊢
        rw [hl1]
        simp [List.append_assoc]
      · rw [if_neg hq]
        refine ⟨[⟨"INFO", "OTA", "Checking for GitHub updates..."⟩] ++ l1
          ++ [⟨"INFO", "OTA", "New version available: " ++ P.1 ++ " (current: "
                ++ P.2.currentVersion ++ ")"⟩]
          ++ l2 ++ [⟨"ERROR", "OTA", "Update failed"⟩], ?_⟩
        rw [show (logMessage Q.2 "ERROR" "OTA" "Update failed").log
            = Q.2.log ++ [(⟨"ERROR", "OTA", "Update failed"⟩ : LogEntry)] from rfl, hl2]
        dsimp only [logMessage] at hl1 ⊢
        rw [hl1]
        simp [List.append_assoc]
    · rw [if_neg hc]
      refine ⟨[⟨"INFO", "OTA", "Checking for GitHub updates..."⟩] ++ l1
        ++ [⟨"INFO", "OTA",
            "No updates available (current: " ++ P.2.currentVersion ++ ")"⟩], ?_⟩
      rw [show (logMessage P.2 "INFO" "OTA"
            ("No updates available (current: " ++ P.2.currentVersion ++ ")")).log
          = P.2.log
            ++ [(⟨"INFO", "OTA",
                "No updates available (current: " ++ P.2.currentVersion ++ ")"⟩ : LogEntry)]
          from rfl, hl1]
      dsimp only [logMessage]
      simp [List.append_assoc]

/-- C6 (amended): while `updateInProgress` is set, the scheduled auto-update
trigger in `loop` is skipped silently — the state (including the log) is
completely unchanged, nothing is logged at any level, and nothing is queued —
while the manual `/update?action=check` trigger is not guarded by the busy
flag at all: it logs "Manual update check requested" at INFO and invokes the
update check regardless. -/
theorem busy_trigger_not_guarded (cfg : DeviceConfig) (elapsed : Bool)
    (envc : CheckEnv) (envr : ReqEnv) (st : DevState)
    (hbusy : st.updateInProgress = true) :
    loopUpdateStep cfg elapsed envc st = st ∧
    (envr.actionCheck = true →
      ∃ rest, (handleUpdateRequest cfg envr st).log
        = st.log ++ ⟨"INFO", "OTA", "Manual update check requested"⟩ :: rest) := by
  constructor
  · simp only [loopUpdateStep]
    rw [if_neg (by simp [hbusy])]
  · intro ha
    simp only [handleUpdateRequest]
    rw [if_pos ha]
    obtain ⟨l, hl⟩ := checkForGitHubUpdate_log_extends cfg envr.check
      (logMessage st "INFO" "OTA" "Manual update check requested")
    refine ⟨l, ?_⟩
    rw [hl]
    simp [logMessage]

/-- Witness for C6's amended statement at a concrete busy state. -/
theorem busy_trigger_not_guarded_witness :
    stBusy.updateInProgress = true ∧
    loopUpdateStep cfgEx true envApi404 stBusy = stBusy ∧
    envBusyReq.actionCheck = true ∧
    ∃ rest, (handleUpdateRequest cfgEx envBusyReq stBusy).log
      = stBusy.log ++ ⟨"INFO", "OTA", "Manual update check requested"⟩ :: rest :=
  ⟨rfl,
   (busy_trigger_not_guarded cfgEx true envApi404 envBusyReq stBusy rfl).1,
   rfl,
   (busy_trigger_not_guarded cfgEx true envApi404 envBusyReq stBusy rfl).2 rfl⟩

/-- C6 counterexample: with the busy flag set, the manual trigger is not a
DEBUG-logged no-op: it records the INFO manual-request entry and runs the
check (which here logs the WiFi error), and no DEBUG entry appears at all. -/
theorem busy_trigger_cex :
    stBusy.updateInProgress = true ∧
    (handleUpdateRequest cfgEx envBusyReq stBusy).log
      = [⟨"INFO", "OTA", "Manual update check requested"⟩,
         ⟨"ERROR", "OTA", "WiFi not connected, skipping update check"⟩] ∧
    ∀ e ∈ (handleUpdateRequest cfgEx envBusyReq stBusy).log, e.level ≠ "DEBUG" := by
  exact ⟨rfl, by decide, by decide⟩

/-- C8 (amended): saving a configuration and loading it back yields the same
configuration in all ten fields, provided `wifiSsid` is non-empty; a saved
empty `wifiSsid` is instead replaced on load by the built-in default WiFi
credentials. -/
theorem saveLoad_roundtrip (prior c : DeviceConfig)
    (h : c.wifiSsid.length ≠ 0) :
    loadConfig (some (saveConfig c)) prior = c := by
  simp only [loadConfig, saveConfig, Option.getD_some]
  rw [if_neg h]

/-- Witness for C8's amended statement at a concrete configuration with a
non-empty SSID. -/
theorem saveLoad_roundtrip_witness :
    cfgEx.wifiSsid.length ≠ 0 ∧
    loadConfig (some (saveConfig cfgEx)) cfgNoSsid = cfgEx :=
  ⟨by decide, saveLoad_roundtrip cfgNoSsid cfgEx (by decide)⟩

/-- C8 counterexample: a configuration with empty `wifiSsid` does not round
trip — `loadConfig` substitutes the default SSID. -/
theorem saveLoad_roundtrip_cex :
    cfgNoSsid.wifiSsid = "" ∧
    loadConfig (some (saveConfig cfgNoSsid)) cfgNoSsid ≠ cfgNoSsid := by
  refine ⟨rfl, fun h => ?_⟩
  have h2 := congrArg DeviceConfig.wifiSsid h
  rw [show (loadConfig (some (saveConfig cfgNoSsid)) cfgNoSsid).wifiSsid = "ssid"
    from rfl] at h2
  rw [show cfgNoSsid.wifiSsid = "" from rfl] at h2
  exact absurd h2 (by decide)

end Esp32
